import Mathlib

/-!
Verification of the ETL country-GDP pipeline (`src/main.py`).

The script is a four-stage linear pipeline: extract an HTML table of GDP
figures, convert millions to rounded billions, load the result into a CSV
file and an SQLite table, then run one filter query, logging each milestone.

The shallow embedding below translates the Python source into Lean:
* HTML documents are modelled structurally (`Document`, `TBody`, `Row`,
  `Cell`): a cell records its first embedded anchor (BeautifulSoup's
  `col.find('a')` / `col.a`) and its direct text children (`tag.contents`,
  restricted to text nodes, which is all the GDP cells of the source page
  contain).  `'—' in tag` in BeautifulSoup is `tag.__contains__`, i.e.
  membership of the exact string in `tag.contents`, and is modelled as such.
* Python floats are modelled as rationals; `np.round(x, 2)` is modelled as
  exact round-half-to-even on the rational (the claims under verification
  avoid the 0.005 ties where binary doubles could differ).
* Fallible Python code (IndexError on missing table/cell, ValueError from
  `float`) is modelled with `Except` / `Option`.
* The SQLite database is explicit state: a list of named tables;
  `to_sql(..., if_exists='replace')` replaces the named table.
* The log file is a list of lines threaded explicitly.
-/

deriving instance DecidableEq for Except

namespace GDPETL

/-! ## Module-level constants (`src/main.py` lines 19-23) -/

def table_attribs : List String := ["Country", "GDP_USD_millions"]

def db_name : String := "World_Economies.db"

def tb_name : String := "Countries_by_GDP"

def csv_path : String := "Countries_by_GDP.csv"

/-! ## HTML document model -/

/-- An `<a>` element: its `contents` list (direct children, text nodes).
`col[0].a.contents[0]` reads the first entry. -/
structure Anchor where
  contents : List String
deriving DecidableEq

/-- A `<td>` element.  `anchor` is the first `<a>` descendant, as returned by
`find('a')` / `.a` (none if the cell has no embedded hyperlink); `contents`
is the list of direct text children (`tag.contents`). -/
structure Cell where
  anchor : Option Anchor
  contents : List String
deriving DecidableEq

/-- A `<tr>` element: `cells` is `row.find_all('td')`. -/
structure Row where
  cells : List Cell
deriving DecidableEq

/-- A `<tbody>` element: `rows` is `find_all('tr')`. -/
structure TBody where
  rows : List Row
deriving DecidableEq

/-- A parsed HTML page: `tbodies` is `data.find_all('tbody')`. -/
structure Document where
  tbodies : List TBody
deriving DecidableEq

/-- Well-formedness of HTML text nodes: an HTML parser never produces an
empty `NavigableString` child, so every modelled content string is
non-empty, in cells and in their anchors alike. -/
def Cell.wf (c : Cell) : Prop :=
  (∀ s ∈ c.contents, s ≠ "") ∧ ∀ a, c.anchor = some a → ∀ s ∈ a.contents, s ≠ ""

/-- A row is well-formed when all its cells are. -/
def Row.wf (r : Row) : Prop := ∀ c ∈ r.cells, c.wf

/-- The concatenated text of a cell's direct children (BeautifulSoup's
`get_text()` for a text-only cell). -/
def cellText (c : Cell) : String := String.join c.contents

/-- Whether a string contains the em-dash placeholder character anywhere. -/
def textHasEmDash (s : String) : Bool := s.toList.contains '—'

/-! ## Pipeline values and frames -/

/-- A Python object held in a DataFrame column: the GDP column holds strings
before transformation and floats (modelled as rationals) after. -/
inductive PyVal
  | str : String → PyVal
  | num : ℚ → PyVal
deriving DecidableEq

/-- `x` if it is a string (the `x.split(',')` step requires one). -/
def PyVal.asStr : PyVal → Option String
  | PyVal.str s => some s
  | PyVal.num _ => none

/-- Whether a value is numeric. -/
def PyVal.isNum : PyVal → Bool
  | PyVal.str _ => false
  | PyVal.num _ => true

/-- The two-column pandas DataFrame flowing through the pipeline:
`countries` is the `Country` column, `gdps` the GDP column, and
`gdpColName` the current label of the GDP column (`GDP_USD_millions`
as built by `extract`, renamed by `transform`). -/
structure Frame where
  gdpColName : String
  countries : List String
  gdps : List PyVal
deriving DecidableEq

/-! ## Extractor (`extract`, lines 26-41) -/

/-- One iteration of the row loop (lines 33-40).  `Except.error` marks a
Python exception (IndexError); `Except.ok none` marks a skipped row;
`Except.ok (some (country, gdp))` an emitted record.  Mirrors the source:
`col = row.find_all('td')`; skip if `len(col) == 0`; then require
`col[0].find('a') is not None` (short-circuit: `col[2]` is only touched
when the anchor test passes) and `'—' not in col[2]` (exact membership of
the string in `col[2].contents`); emit `col[0].a.contents[0]` and
`col[2].contents[0]`. -/
def extractRow (row : Row) : Except String (Option (String × String)) :=
  match row.cells with
  | [] => Except.ok none
  | c0 :: _ =>
    match c0.anchor with
    | none => Except.ok none
    | some a =>
      match row.cells[2]? with
      | none => Except.error "IndexError"
      | some c2 =>
        if "—" ∈ c2.contents then Except.ok none
        else
          match a.contents[0]?, c2.contents[0]? with
          | some country, some g => Except.ok (some (country, g))
          | _, _ => Except.error "IndexError"

/-- The row loop over the selected table body, in document order; the first
exception aborts the whole extraction (nothing catches it). -/
def extractRows : List Row → Except String (List (String × String))
  | [] => Except.ok []
  | r :: rs =>
    match extractRow r with
    | Except.error e => Except.error e
    | Except.ok none => extractRows rs
    | Except.ok (some p) =>
      match extractRows rs with
      | Except.error e => Except.error e
      | Except.ok ps => Except.ok (p :: ps)

/-- Assemble the extracted pairs into the DataFrame built by repeated
`pd.concat` (lines 30, 37-40): `Country` and `GDP_USD_millions` columns. -/
def extractTB (tb : TBody) : Except String Frame :=
  match extractRows tb.rows with
  | Except.error e => Except.error e
  | Except.ok ps =>
    Except.ok
      { gdpColName := "GDP_USD_millions"
        countries := ps.map Prod.fst
        gdps := ps.map fun p => PyVal.str p.2 }

/-- `extract` (lines 26-41) applied to the already-fetched, already-parsed
page: `tables = data.find_all('tbody'); rows = tables[2].find_all('tr')` —
`tables[2]` raises IndexError when fewer than three table bodies exist. -/
def extract (doc : Document) : Except String Frame :=
  match doc.tbodies[2]? with
  | none => Except.error "IndexError"
  | some tb => extractTB tb

/-! ## Numeric parsing and rounding (`transform`, lines 44-52) -/

/-- `"".join(x.split(','))`: remove every comma from the string. -/
def stripCommas (s : String) : String :=
  String.mk (s.toList.filter fun c => !(c == ','))

/-- Accumulate a decimal digit string; `none` on a non-digit character. -/
def parseDigitsAux : List Char → Nat → Option Nat
  | [], acc => some acc
  | c :: cs, acc =>
    if c.isDigit then parseDigitsAux cs (10 * acc + (c.toNat - 48)) else none

/-- Parse a non-empty all-digit string. -/
def parseDigits (l : List Char) : Option Nat :=
  match l with
  | [] => none
  | _ => parseDigitsAux l 0

/-- Split a character list on `'.'`. -/
def splitOnDot : List Char → List (List Char)
  | [] => [[]]
  | c :: cs =>
    if c = '.' then [] :: splitOnDot cs
    else
      match splitOnDot cs with
      | [] => [[c]]
      | h :: t => (c :: h) :: t

/-- An unsigned decimal literal: digits with at most one decimal point. -/
def parseUnsigned (cs : List Char) : Option ℚ :=
  match splitOnDot cs with
  | [ip] => (parseDigits ip).map fun n => (n : ℚ)
  | [ip, fp] =>
    (parseDigits (ip ++ fp)).map fun n => (n : ℚ) / 10 ^ fp.length
  | _ => none

/-- Python's `float()` on the decimal literals this pipeline feeds it:
an optional sign, then digits with at most one decimal point (exponents,
infinities and NaN never occur in the source data and are out of scope).
`none` models the ValueError raised on anything else. -/
def parseDecimal (s : String) : Option ℚ :=
  match s.toList with
  | '-' :: rest => (parseUnsigned rest).map Neg.neg
  | '+' :: rest => parseUnsigned rest
  | cs => parseUnsigned cs

/-- Round to the nearest integer, ties to even: the rounding mode of
`np.round`, taken exactly on the rational model. -/
def roundHalfEven (q : ℚ) : ℤ :=
  if q - ⌊q⌋ < 1 / 2 then ⌊q⌋
  else if 1 / 2 < q - ⌊q⌋ then ⌊q⌋ + 1
  else if ⌊q⌋ % 2 = 0 then ⌊q⌋ else ⌊q⌋ + 1

/-- `np.round(x, 2)`: round to two decimal places. -/
def round2 (x : ℚ) : ℚ := ((roundHalfEven (x * 100) : ℤ) : ℚ) / 100

/-- Left-to-right effectful map over a list, aborting at the first failure:
the evaluation order of a Python list comprehension whose body can raise. -/
def mapMo {α β : Type} (f : α → Option β) : List α → Option (List β)
  | [] => some []
  | a :: as =>
    match f a with
    | none => none
    | some b =>
      match mapMo f as with
      | none => none
      | some bs => some (b :: bs)

/-- `transform` (lines 44-52).  The three list comprehensions become three
passes; line 50 (`dataset["GDP_USD_millions"] = gdp_list`) mutates the
caller's DataFrame in place, while line 51 (`rename`) returns a fresh copy.
The result is the pair `(returned frame, final state of the argument)`,
making the in-place mutation explicit; `none` models a propagating
AttributeError/ValueError. -/
def transform (dataset : Frame) : Option (Frame × Frame) :=
  match mapMo PyVal.asStr dataset.gdps with
  | none => none
  | some gdp_list =>
    match mapMo (fun x => parseDecimal (stripCommas x)) gdp_list with
    | none => none
    | some gdp_vals =>
      let gdp_rounded := gdp_vals.map fun x => round2 (x / 1000)
      let mutated : Frame := { dataset with gdps := gdp_rounded.map PyVal.num }
      let renamed : Frame := { mutated with gdpColName := "GDP_USD_billions" }
      some (renamed, mutated)

/-! ## Database sink and query (`load_to_db`, `run_query`, lines 60-69) -/

/-- One row of the SQLite table: country and GDP value. -/
abbrev DBRow := String × PyVal

/-- The contents of one SQLite table. -/
abbrev DBTable := List DBRow

/-- The single-file SQLite database: named tables. -/
abbrev Database := List (String × DBTable)

/-- The rows a frame contributes to the database (`index=False`: no index
column is stored). -/
def frameRows (f : Frame) : DBTable := f.countries.zip f.gdps

/-- `load_to_db` (lines 60-62): `to_sql(..., if_exists='replace')` drops
the named table if it exists, recreates it, and inserts all rows. -/
def load_to_db (dataset : Frame) (db : Database) (table_name : String) : Database :=
  (table_name, frameRows dataset) :: db.filter fun t => !(t.1 == table_name)

/-- Look a table up by name. -/
def getTable (db : Database) (name : String) : Option DBTable :=
  (db.find? fun t => t.1 == name).map Prod.snd

/-- The fixed query text of line 92. -/
def sql_statement : String :=
  "SELECT * from " ++ tb_name ++ " WHERE GDP_USD_billions >= 100"

/-- The row predicate of `sql_statement`'s WHERE clause,
`GDP_USD_billions >= 100`, under SQLite comparison semantics: a numeric
value compares numerically; a text value sorts above every numeric value,
so `text >= 100` is true (post-transform tables only hold numerics, so the
text branch never fires in the pipeline). -/
def gdpAtLeast100 (v : PyVal) : Bool :=
  match v with
  | PyVal.num q => decide ((100 : ℚ) ≤ q)
  | PyVal.str _ => true

/-- `run_query` (lines 65-69) evaluating `sql_statement` on the stored
table: `SELECT *` with the WHERE filter keeps the qualifying rows in
stored order. -/
def run_query (t : DBTable) : DBTable := t.filter fun r => gdpAtLeast100 r.2

/-! ## Logger (`log_progress`, lines 72-78) -/

/-- A wall-clock instant as `datetime.now()` delivers it. -/
structure Timestamp where
  year : Nat
  month : Nat
  day : Nat
  hour : Nat
  minute : Nat
  second : Nat
deriving DecidableEq

/-- Zero-pad a numeral to the given width (strftime padding). -/
def padNum (width : Nat) (n : Nat) : String :=
  let s := toString n
  String.mk (List.replicate (width - s.length) '0') ++ s

/-- The abbreviated month names of strftime's `%h`. -/
def monthNames : List String :=
  ["Jan", "Feb", "Mar", "Apr", "May", "Jun",
   "Jul", "Aug", "Sep", "Oct", "Nov", "Dec"]

/-- `now.strftime('%Y-%h-%d-%H:%M:%S')` (line 74-76): four-digit year,
abbreviated month name, two-digit day, then 24-hour `HH:MM:SS`. -/
def formatTimestamp (t : Timestamp) : String :=
  padNum 4 t.year ++ "-" ++ (monthNames[t.month - 1]?).getD "" ++ "-" ++
    padNum 2 t.day ++ "-" ++ padNum 2 t.hour ++ ":" ++ padNum 2 t.minute ++
    ":" ++ padNum 2 t.second

/-- `log_progress` (lines 72-78): open the fixed-path file in append mode
(an absent file is an empty line list) and write one line
`<timestamp> : <message>`.  The file is threaded explicitly as its list of
lines. -/
def log_progress (message : String) (now : Timestamp) (file : List String) :
    List String :=
  file ++ [formatTimestamp now ++ " : " ++ message]

/-- A whole run's worth of log calls, applied in order to the file. -/
def runLog : List (Timestamp × String) → List String → List String
  | [], file => file
  | e :: es, file => runLog es (log_progress e.2 e.1 file)

/-! ## Driver (module-level statements, lines 81-95) -/

/-- The milestone messages the driver logs, in program order. -/
def logMessages : List String :=
  ["Preliminaries complete. Initiating ETL process",
   "Data extraction complete. Initiating Transformation process",
   "Data transformation complete. Initiating loading process",
   "Data saved to CSV file",
   "SQL Connection initiated.",
   "Data loaded to Database as table. Running the query",
   "Process Complete."]

/-- Observable final state of one driver run: the milestone messages
written to the log (timestamps handled by `log_progress` separately),
whether the SQLite connection was ever opened / explicitly closed, the
final database state, and the query output if reached. -/
structure DriverResult where
  logMsgs : List String
  connOpened : Bool
  connClosed : Bool
  db : Database
  queryOut : Option DBTable
deriving DecidableEq

/-- The module-level driver (lines 81-95).  `doc` is the parsed page the
fetch inside `extract` returns; `db0` the database file's prior contents.
The script has no try/except, so the first exception aborts the remaining
statements; external faults of the stages that are pure library calls
(network fetch, CSV write, connection open, SQL insert, SQL select) are
injected as booleans, while extraction and transformation faults follow
from the data itself. -/
def driver (doc : Document) (db0 : Database)
    (fetchOk csvOk connectOk loadOk queryOk : Bool) : DriverResult :=
  let lg1 := ["Preliminaries complete. Initiating ETL process"]
  match (if fetchOk then extract doc else Except.error "NetworkError" :
      Except String Frame) with
  | Except.error _ => ⟨lg1, false, false, db0, none⟩
  | Except.ok df =>
    let lg2 := lg1 ++ ["Data extraction complete. Initiating Transformation process"]
    match transform df with
    | none => ⟨lg2, false, false, db0, none⟩
    | some (df2, _) =>
      let lg3 := lg2 ++ ["Data transformation complete. Initiating loading process"]
      if csvOk = false then ⟨lg3, false, false, db0, none⟩ else
      let lg4 := lg3 ++ ["Data saved to CSV file"]
      if connectOk = false then ⟨lg4, false, false, db0, none⟩ else
      let lg5 := lg4 ++ ["SQL Connection initiated."]
      if loadOk = false then ⟨lg5, true, false, db0, none⟩ else
      let db1 := load_to_db df2 db0 tb_name
      let lg6 := lg5 ++ ["Data loaded to Database as table. Running the query"]
      if queryOk = false then ⟨lg6, true, false, db1, none⟩ else
      let out := (getTable db1 tb_name).map run_query
      let lg7 := lg6 ++ ["Process Complete."]
      ⟨lg7, true, true, db1, out⟩

/-- How many milestones the run reaches before its first fault (7 = the
full success path). -/
def stageCount (doc : Document)
    (fetchOk csvOk connectOk loadOk queryOk : Bool) : Nat :=
  if fetchOk = false then 1 else
  match extract doc with
  | Except.error _ => 1
  | Except.ok df =>
    match transform df with
    | none => 2
    | some _ =>
      if csvOk = false then 3 else
      if connectOk = false then 4 else
      if loadOk = false then 5 else
      if queryOk = false then 6 else 7

/-! ## Fixtures

The end-to-end fixture of the spec: an HTML page with three table bodies
whose third holds four rows — a linked country row, an unlinked aggregate
row, a linked row with the em-dash placeholder GDP, and a second linked
country row. -/

/-- Fixture row `[United States, 26,854,599]`: first cell holds a
hyperlink, third cell the raw GDP string. -/
def usRow : Row :=
  ⟨[⟨some ⟨["United States"]⟩, []⟩, ⟨none, ["North America"]⟩,
    ⟨none, ["26,854,599"]⟩]⟩

/-- Fixture row `[World (aggregate, no link), —]`: no hyperlink in the
first cell. -/
def worldRow : Row :=
  ⟨[⟨none, ["World"]⟩, ⟨none, ["-"]⟩, ⟨none, ["—"]⟩]⟩

/-- Fixture row `[—placeholder country—, —]`: linked, but the third cell
is the em-dash placeholder. -/
def placeholderRow : Row :=
  ⟨[⟨some ⟨["—placeholder country—"]⟩, []⟩, ⟨none, ["Nowhere"]⟩,
    ⟨none, ["—"]⟩]⟩

/-- Fixture row `[Country X, 1,200]`. -/
def xRow : Row :=
  ⟨[⟨some ⟨["Country X"]⟩, []⟩, ⟨none, ["Somewhere"]⟩, ⟨none, ["1,200"]⟩]⟩

/-- The fixture document: three table bodies, the third holding the four
rows above. -/
def fixtureDoc : Document :=
  ⟨[⟨[]⟩, ⟨[]⟩, ⟨[usRow, worldRow, placeholderRow, xRow]⟩]⟩

/-- The frame `extract` produces from `fixtureDoc`. -/
def extractedFrame : Frame :=
  ⟨"GDP_USD_millions", ["United States", "Country X"],
    [PyVal.str "26,854,599", PyVal.str "1,200"]⟩

/-! ## Helper lemmas -/

/-- The emitted record of a row iteration that neither raised nor skipped. -/
def okOpt {α : Type} : Except String (Option α) → Option α
  | Except.ok (some x) => some x
  | _ => none

theorem extractRows_ok_eq (rows : List Row) (ps : List (String × String))
    (h : extractRows rows = Except.ok ps) :
    ps = rows.filterMap fun r => okOpt (extractRow r) := by
  induction rows generalizing ps with
  | nil =>
    simp only [extractRows, Except.ok.injEq] at h
    simp [← h]
  | cons r rs ih =>
    rw [extractRows] at h
    cases he : extractRow r with
    | error e => rw [he] at h; exact absurd h (by simp)
    | ok o =>
      cases o with
      | none =>
        rw [he] at h
        dsimp only at h
        have hok : okOpt (extractRow r) = none := by rw [he]; rfl
        rw [List.filterMap_cons, hok]
        exact ih ps h
      | some p =>
        rw [he] at h
        dsimp only at h
        cases hrs : extractRows rs with
        | error e => rw [hrs] at h; exact absurd h (by simp)
        | ok ps' =>
          rw [hrs] at h
          dsimp only at h
          simp only [Except.ok.injEq] at h
          subst h
          have hok : okOpt (extractRow r) = some p := by rw [he]; rfl
          rw [List.filterMap_cons, hok, ← ih ps' hrs]

theorem mapMo_some {α β : Type} (f : α → Option β) (l : List α) (r : List β)
    (h : mapMo f l = some r) :
    r.length = l.length ∧
      ∀ (i : ℕ) (a : α), l[i]? = some a → ∃ b, f a = some b ∧ r[i]? = some b := by
  induction l generalizing r with
  | nil =>
    simp only [mapMo, Option.some.injEq] at h
    subst h
    simp
  | cons a as ih =>
    rw [mapMo] at h
    cases hfa : f a with
    | none => rw [hfa] at h; exact absurd h (by simp)
    | some b =>
      rw [hfa] at h
      cases hrest : mapMo f as with
      | none => rw [hrest] at h; exact absurd h (by simp)
      | some bs =>
        rw [hrest] at h
        simp only [Option.some.injEq] at h
        subst h
        obtain ⟨hlen, hpt⟩ := ih bs hrest
        refine ⟨by simp [hlen], ?_⟩
        intro i x hx
        cases i with
        | zero =>
          simp only [List.getElem?_cons_zero, Option.some.injEq] at hx
          subst hx
          exact ⟨b, hfa, by simp⟩
        | succ n =>
          simp only [List.getElem?_cons_succ] at hx ⊢
          exact hpt n x hx

theorem transform_spec (f res mutf : Frame) (h : transform f = some (res, mutf)) :
    res.gdpColName = "GDP_USD_billions" ∧
    mutf.gdpColName = f.gdpColName ∧
    res.countries = f.countries ∧
    mutf.countries = f.countries ∧
    res.gdps = mutf.gdps ∧
    res.gdps.length = f.gdps.length ∧
    (∀ v ∈ mutf.gdps, ∃ q, v = PyVal.num q) ∧
    ∀ (i : ℕ) (v : PyVal), f.gdps[i]? = some v → ∃ s q, v = PyVal.str s ∧
      parseDecimal (stripCommas s) = some q ∧
      res.gdps[i]? = some (PyVal.num (round2 (q / 1000))) := by
  rw [transform] at h
  cases h1 : mapMo PyVal.asStr f.gdps with
  | none => rw [h1] at h; exact absurd h (by simp)
  | some raw =>
    rw [h1] at h
    dsimp only at h
    cases h2 : mapMo (fun x => parseDecimal (stripCommas x)) raw with
    | none => rw [h2] at h; exact absurd h (by simp)
    | some nums =>
      rw [h2] at h
      dsimp only at h
      simp only [Option.some.injEq, Prod.mk.injEq] at h
      obtain ⟨hres, hmut⟩ := h
      obtain ⟨hlen1, hpt1⟩ := mapMo_some _ _ _ h1
      obtain ⟨hlen2, hpt2⟩ := mapMo_some _ _ _ h2
      subst hres
      subst hmut
      refine ⟨rfl, rfl, rfl, rfl, rfl, by simp [hlen1, hlen2], ?_, ?_⟩
      · intro v hv
        simp only [List.mem_map] at hv
        obtain ⟨q, _, hq⟩ := hv
        exact ⟨_, hq.symm⟩
      · intro i v hv
        obtain ⟨s, hs, hraw⟩ := hpt1 i v hv
        obtain ⟨q, hq, hnum⟩ := hpt2 i s hraw
        refine ⟨s, q, ?_, hq, ?_⟩
        · cases v with
          | str s' => simp only [PyVal.asStr, Option.some.injEq] at hs; rw [hs]
          | num q' => simp [PyVal.asStr] at hs
        · simp only [List.getElem?_map, hnum, Option.map_some']

theorem runLog_eq (entries : List (Timestamp × String)) (file : List String) :
    runLog entries file =
      file ++ entries.map fun e => formatTimestamp e.1 ++ " : " ++ e.2 := by
  induction entries generalizing file with
  | nil => simp [runLog]
  | cons e es ih =>
    rw [runLog, ih]
    simp [log_progress]

/-! ## Claim theorems -/

/-- Claim C1: on the fixture document whose third table body holds the rows
`[United States, 26,854,599]`, `[World (no link), —]`,
`[—placeholder country—, —]`, `[Country X, 1,200]`, the extractor emits
exactly the records `(United States, "26,854,599")` and
`(Country X, "1,200")` in that order, the transformer maps them to
`(United States, 26854.60)` and `(Country X, 1.20)`, and the ≥ 100 query
over the loaded table returns exactly the United States record. -/
theorem end_to_end_fixture :
    extract fixtureDoc = Except.ok extractedFrame ∧
    transform extractedFrame =
      some (⟨"GDP_USD_billions", ["United States", "Country X"],
              [PyVal.num 26854.60, PyVal.num 1.20]⟩,
            ⟨"GDP_USD_millions", ["United States", "Country X"],
              [PyVal.num 26854.60, PyVal.num 1.20]⟩) ∧
    getTable (load_to_db ⟨"GDP_USD_billions", ["United States", "Country X"],
          [PyVal.num 26854.60, PyVal.num 1.20]⟩ [] tb_name) tb_name
        = some [("United States", PyVal.num 26854.60),
                ("Country X", PyVal.num 1.20)] ∧
    run_query [("United States", PyVal.num 26854.60),
               ("Country X", PyVal.num 1.20)]
        = [("United States", PyVal.num 26854.60)] := by
  refine ⟨by decide, ?_, ?_, ?_⟩
  · have h1 : mapMo PyVal.asStr extractedFrame.gdps
        = some ["26,854,599", "1,200"] := by decide
    have h2 : mapMo (fun x => parseDecimal (stripCommas x))
        ["26,854,599", "1,200"] = some [(26854599 : ℚ), (1200 : ℚ)] := by decide
    have hr1 : round2 ((26854599 : ℚ) / 1000) = 26854.60 := by
      norm_num [round2, roundHalfEven]
    have hr2 : round2 ((1200 : ℚ) / 1000) = 1.20 := by
      norm_num [round2, roundHalfEven]
    unfold transform
    rw [h1]
    dsimp only
    rw [h2]
    dsimp only [List.map]
    rw [hr1, hr2]
    dsimp only [extractedFrame]
  · norm_num [getTable, load_to_db, frameRows, tb_name, List.find?]
  · norm_num [run_query, gdpAtLeast100, List.filter]

/-- Claim C2: for every record the transformer strips the commas from the
raw GDP string, parses the rest as a number, divides by 1000 and rounds to
two decimals (round-half-to-even), relabelling the column to
`GDP_USD_billions`; on `"23,315,081"` it yields exactly `23315.08`. -/
theorem transform_converts_millions_to_billions :
    (∀ f res mutf, transform f = some (res, mutf) →
      res.gdpColName = "GDP_USD_billions" ∧
      ∀ (i : ℕ) (v : PyVal), f.gdps[i]? = some v → ∃ s q, v = PyVal.str s ∧
        parseDecimal (stripCommas s) = some q ∧
        res.gdps[i]? = some (PyVal.num (round2 (q / 1000)))) ∧
    transform ⟨"GDP_USD_millions", ["Demo"], [PyVal.str "23,315,081"]⟩ =
      some (⟨"GDP_USD_billions", ["Demo"], [PyVal.num 23315.08]⟩,
            ⟨"GDP_USD_millions", ["Demo"], [PyVal.num 23315.08]⟩) := by
  constructor
  · intro f res mutf h
    obtain ⟨h1, _, _, _, _, _, _, h8⟩ := transform_spec f res mutf h
    exact ⟨h1, h8⟩
  · have h1 : mapMo PyVal.asStr [PyVal.str "23,315,081"]
        = some ["23,315,081"] := by decide
    have h2 : mapMo (fun x => parseDecimal (stripCommas x)) ["23,315,081"]
        = some [(23315081 : ℚ)] := by decide
    have hr : round2 ((23315081 : ℚ) / 1000) = 23315.08 := by
      norm_num [round2, roundHalfEven]
    unfold transform
    rw [h1]
    dsimp only
    rw [h2]
    dsimp only [List.map]
    rw [hr]

/-- Witness for C2's theorem at the concrete frame holding `"23,315,081"`:
its hypotheses are discharged by the theorem's own concrete conjunct. -/
theorem transform_converts_millions_to_billions_witness :
    (⟨"GDP_USD_billions", ["Demo"], [PyVal.num 23315.08]⟩ : Frame).gdpColName
      = "GDP_USD_billions" :=
  (transform_converts_millions_to_billions.1 _ _ _
    transform_converts_millions_to_billions.2).1

/-- Claim C10 (implicit frame effect): `transform` mutates its argument in
place — line 50 overwrites the caller's `GDP_USD_millions` column with the
numeric rounded-billions values, while the rename of line 51 appears only
in the returned frame, so the argument keeps its original column label. -/
theorem transform_mutates_argument (f res mutf : Frame)
    (h : transform f = some (res, mutf)) :
    mutf.gdpColName = f.gdpColName ∧
    res.gdpColName = "GDP_USD_billions" ∧
    mutf.countries = f.countries ∧
    mutf.gdps = res.gdps ∧
    ∀ v ∈ mutf.gdps, ∃ q, v = PyVal.num q := by
  obtain ⟨h1, h2, _, h4, h5, _, h7, _⟩ := transform_spec f res mutf h
  exact ⟨h2, h1, h4, h5.symm, h7⟩

/-- Witness for C10: the mutation effect observed on a concrete frame. -/
theorem transform_mutates_argument_witness :
    (⟨"GDP_USD_millions", ["A"], [PyVal.num 1]⟩ : Frame).gdpColName
      = (⟨"GDP_USD_millions", ["A"], [PyVal.str "1,000"]⟩ : Frame).gdpColName :=
  (transform_mutates_argument
    ⟨"GDP_USD_millions", ["A"], [PyVal.str "1,000"]⟩
    ⟨"GDP_USD_billions", ["A"], [PyVal.num 1]⟩
    ⟨"GDP_USD_millions", ["A"], [PyVal.num 1]⟩
    (by
      have h1 : mapMo PyVal.asStr [PyVal.str "1,000"] = some ["1,000"] := by decide
      have h2 : mapMo (fun x => parseDecimal (stripCommas x)) ["1,000"]
          = some [(1000 : ℚ)] := by decide
      have hr : round2 ((1000 : ℚ) / 1000) = 1 := by
        norm_num [round2, roundHalfEven]
      unfold transform
      rw [h1]
      dsimp only
      rw [h2]
      dsimp only [List.map]
      rw [hr])).1

/-- Counterexample to claim C3 as stated: the code's placeholder test is
`'—' not in col[2]`, which in BeautifulSoup is exact membership of the
string `"—"` in the cell's direct children, not a substring test on the
cell's text.  A row whose third cell's text contains the em-dash (here the
single child `"—1,200"`) is NOT skipped: the extractor emits a record
whose GDP cell contains the placeholder glyph. -/
theorem emdash_substring_row_not_skipped :
    textHasEmDash (cellText ⟨none, ["—1,200"]⟩) = true ∧
    extractRow ⟨[⟨some ⟨["Atlantis"]⟩, []⟩, ⟨none, ["x"]⟩,
        ⟨none, ["—1,200"]⟩]⟩ = Except.ok (some ("Atlantis", "—1,200")) := by
  decide

/-- Claim C3 as amended: for every row, the extractor skips rows with no
data cells, skips rows whose first data cell has no embedded hyperlink,
and skips rows whose third data cell has the exact string `"—"` among its
direct content elements (an exact element match, not a substring test on
the cell's text); every emitted record takes its country from the first
cell's link text and its GDP string from the third cell's first content
element, so the emitted GDP string is never the bare placeholder `"—"`
and, for well-formed HTML (no empty text nodes), the country is
non-empty. -/
theorem extractRow_filter (row : Row) :
    (row.cells = [] → extractRow row = Except.ok none) ∧
    (∀ c0 cs, row.cells = c0 :: cs → c0.anchor = none →
      extractRow row = Except.ok none) ∧
    (∀ c0 cs c2, row.cells = c0 :: cs → c0.anchor ≠ none →
      row.cells[2]? = some c2 → "—" ∈ c2.contents →
      extractRow row = Except.ok none) ∧
    (∀ p, extractRow row = Except.ok (some p) →
      ∃ c0 cs a c2, row.cells = c0 :: cs ∧ c0.anchor = some a ∧
        row.cells[2]? = some c2 ∧ "—" ∉ c2.contents ∧
        a.contents[0]? = some p.1 ∧ c2.contents[0]? = some p.2 ∧
        p.2 ≠ "—" ∧ (Row.wf row → p.1 ≠ "")) := by
  obtain ⟨cells⟩ := row
  refine ⟨?_, ?_, ?_, ?_⟩
  · intro h
    subst h
    rfl
  · intro c0 cs h ha
    subst h
    rw [extractRow]
    dsimp only
    rw [ha]
  · intro c0 cs c2 h ha h2 hmem
    subst h
    rw [extractRow]
    dsimp only
    cases hanch : c0.anchor with
    | none => rfl
    | some a =>
      dsimp only
      rw [h2]
      dsimp only
      rw [if_pos hmem]
  · intro p hp
    rw [extractRow] at hp
    cases cells with
    | nil => exact absurd hp (by simp)
    | cons c0 cs =>
      dsimp only at hp
      cases hanch : c0.anchor with
      | none => rw [hanch] at hp; exact absurd hp (by simp)
      | some a =>
        rw [hanch] at hp
        dsimp only at hp
        cases h2 : (c0 :: cs)[2]? with
        | none => rw [h2] at hp; exact absurd hp (by simp)
        | some c2 =>
          rw [h2] at hp
          dsimp only at hp
          by_cases hmem : "—" ∈ c2.contents
          · rw [if_pos hmem] at hp
            exact absurd hp (by simp)
          · rw [if_neg hmem] at hp
            cases ha0 : a.contents[0]? with
            | none => rw [ha0] at hp; exact absurd hp (by simp)
            | some country =>
              rw [ha0] at hp
              cases hc0 : c2.contents[0]? with
              | none => rw [hc0] at hp; exact absurd hp (by simp)
              | some g =>
                rw [hc0] at hp
                dsimp only at hp
                simp only [Except.ok.injEq, Option.some.injEq] at hp
                subst hp
                refine ⟨c0, cs, a, c2, rfl, by simp [hanch], by simp [h2],
                  hmem, by simp [ha0], by simp [hc0], ?_, ?_⟩
                · intro hg
                  exact hmem (hg ▸ List.getElem?_mem hc0)
                · intro hwf hc
                  have hcw := hwf c0 (by simp)
                  exact hcw.2 a hanch country (List.getElem?_mem ha0) hc

/-- Witness for C3's amended theorem: the three skip rules and the emission
rule applied at the fixture rows. -/
theorem extractRow_filter_witness :
    extractRow ⟨[]⟩ = Except.ok none ∧
    extractRow worldRow = Except.ok none ∧
    extractRow placeholderRow = Except.ok none ∧
    ∃ c0 cs a c2, usRow.cells = c0 :: cs ∧ c0.anchor = some a ∧
      usRow.cells[2]? = some c2 ∧ "—" ∉ c2.contents ∧
      a.contents[0]? = some ("United States", "26,854,599").1 ∧
      c2.contents[0]? = some ("United States", "26,854,599").2 ∧
      ("United States", "26,854,599").2 ≠ "—" ∧
      (Row.wf usRow → ("United States", "26,854,599").1 ≠ "") :=
  ⟨(extractRow_filter ⟨[]⟩).1 rfl,
   (extractRow_filter worldRow).2.1 _ _ rfl rfl,
   (extractRow_filter placeholderRow).2.2.1 _ _ ⟨none, ["—"]⟩ rfl
     (by decide) (by decide) (by decide),
   (extractRow_filter usRow).2.2.2 ("United States", "26,854,599") (by decide)⟩

/-- Claim C4: the query keeps exactly the rows whose numeric GDP value is
≥ 100 (the comparison is inclusive) and drops exactly those below. -/
theorem run_query_filters_ge_100 (t : DBTable) (r : DBRow)
    (h : ∀ x ∈ t, PyVal.isNum x.2 = true) :
    r ∈ run_query t ↔ r ∈ t ∧ ∃ q, r.2 = PyVal.num q ∧ (100 : ℚ) ≤ q := by
  rw [run_query, List.mem_filter]
  constructor
  · rintro ⟨hm, hb⟩
    refine ⟨hm, ?_⟩
    have hn := h r hm
    cases hv : r.2 with
    | str s => rw [hv] at hn; exact absurd hn (by simp [PyVal.isNum])
    | num q =>
      rw [hv] at hb
      simp only [gdpAtLeast100, decide_eq_true_eq] at hb
      exact ⟨q, rfl, hb⟩
  · rintro ⟨hm, q, hq, hge⟩
    refine ⟨hm, ?_⟩
    rw [hq]
    simp only [gdpAtLeast100, decide_eq_true_eq]
    exact hge

/-- Witness for C4: a boundary row at exactly 100 is kept. -/
theorem run_query_filters_ge_100_witness :
    ("Boundaria", PyVal.num 100) ∈
      run_query [("Boundaria", PyVal.num 100), ("Tinyland", PyVal.num 99)] :=
  (run_query_filters_ge_100 _ _ (by decide)).mpr
    ⟨by simp, 100, rfl, le_refl _⟩

/-- Claim C5: the extractor selects `tables[2]`, the third table body, on
every document with at least three of them, and raises IndexError on every
document with fewer. -/
theorem extract_selects_third_tbody (doc : Document) :
    (doc.tbodies.length < 3 → extract doc = Except.error "IndexError") ∧
    ∀ tb, doc.tbodies[2]? = some tb → extract doc = extractTB tb := by
  constructor
  · intro h
    have h2 : doc.tbodies[2]? = none := List.getElem?_eq_none (by omega)
    rw [extract, h2]
  · intro tb h
    rw [extract, h]

/-- Witness for C5: a document with no table bodies raises IndexError and
the fixture document's extraction comes from its third table body. -/
theorem extract_selects_third_tbody_witness :
    extract ⟨[]⟩ = Except.error "IndexError" ∧
    extract fixtureDoc = extractTB ⟨[usRow, worldRow, placeholderRow, xRow]⟩ :=
  ⟨(extract_selects_third_tbody ⟨[]⟩).1 (by decide),
   (extract_selects_third_tbody fixtureDoc).2 _ (by decide)⟩

/-- Claim C6: `if_exists='replace'` semantics — after loading, the named
table holds exactly the new records, whatever its prior contents (so a
smaller second load leaves no residual rows). -/
theorem load_to_db_replaces (dataset : Frame) (db : Database)
    (table_name : String) :
    getTable (load_to_db dataset db table_name) table_name
      = some (frameRows dataset) := by
  rw [load_to_db, getTable, List.find?_cons_of_pos _ (by simp)]
  rfl

/-- Claim C7: order preservation — the extractor emits surviving rows in
document order (an order-preserving selection, with no deduplication or
aggregation), and the transformer keeps the country sequence and the
column length unchanged; no stage sorts by GDP. -/
theorem pipeline_preserves_order :
    (∀ rows ps, extractRows rows = Except.ok ps →
      ps = rows.filterMap fun r => okOpt (extractRow r)) ∧
    ∀ f res mutf, transform f = some (res, mutf) →
      res.countries = f.countries ∧ res.gdps.length = f.gdps.length := by
  constructor
  · exact extractRows_ok_eq
  · intro f res mutf h
    obtain ⟨_, _, h3, _, _, h6, _, _⟩ := transform_spec f res mutf h
    exact ⟨h3, h6⟩

/-- Witness for C7: the fixture rows' extraction is the order-preserving
selection of the surviving rows. -/
theorem pipeline_preserves_order_witness :
    [("United States", "26,854,599"), ("Country X", "1,200")] =
      [usRow, worldRow, placeholderRow, xRow].filterMap
        (fun r => okOpt (extractRow r)) :=
  pipeline_preserves_order.1 [usRow, worldRow, placeholderRow, xRow] _
    (by decide)

/-- Claim C8: every log call appends exactly one line of the form
`<timestamp> : <message>` (format `%Y-%h-%d-%H:%M:%S`), never touching the
existing lines (an absent file is the empty list), so a later run's lines
strictly follow an earlier run's unaltered lines. -/
theorem log_progress_appends (file : List String) (message : String)
    (t : Timestamp) (entries : List (Timestamp × String)) :
    log_progress message t file
        = file ++ [formatTimestamp t ++ " : " ++ message] ∧
    (log_progress message t file).take file.length = file ∧
    runLog entries file
        = file ++ entries.map fun e => formatTimestamp e.1 ++ " : " ++ e.2 := by
  refine ⟨rfl, ?_, runLog_eq entries file⟩
  rw [log_progress, List.take_left]

/-- Claim C9: the driver catches nothing — its log holds exactly the
milestones of the stages reached before the first fault, the connection is
closed only when all seven milestones are reached (the success path), and
it was opened iff the run reached the fifth milestone
(`SQL Connection initiated.`), so any later fault leaves it unclosed. -/
theorem driver_propagates_faults (doc : Document) (db0 : Database)
    (fetchOk csvOk connectOk loadOk queryOk : Bool) :
    (driver doc db0 fetchOk csvOk connectOk loadOk queryOk).logMsgs
        = logMessages.take (stageCount doc fetchOk csvOk connectOk loadOk queryOk) ∧
    ((driver doc db0 fetchOk csvOk connectOk loadOk queryOk).connClosed = true ↔
        stageCount doc fetchOk csvOk connectOk loadOk queryOk = 7) ∧
    ((driver doc db0 fetchOk csvOk connectOk loadOk queryOk).connOpened = true ↔
        5 ≤ stageCount doc fetchOk csvOk connectOk loadOk queryOk) := by
  cases fetchOk with
  | false =>
    refine ⟨?_, ?_, ?_⟩ <;> simp [driver, stageCount, logMessages]
  | true =>
    cases hext : extract doc with
    | error e =>
      refine ⟨?_, ?_, ?_⟩ <;> simp [driver, stageCount, hext, logMessages]
    | ok df =>
      cases htr : transform df with
      | none =>
        refine ⟨?_, ?_, ?_⟩ <;>
          simp [driver, stageCount, hext, htr, logMessages]
      | some p =>
        obtain ⟨df2, mf⟩ := p
        cases csvOk <;> cases connectOk <;> cases loadOk <;> cases queryOk <;>
          refine ⟨?_, ?_, ?_⟩ <;>
          simp [driver, stageCount, hext, htr, logMessages]

end GDPETL
